import Mathlib

/-!
Shallow embedding of the WriteOff repository logic relevant to the
deductibility response parser (src/lib/openai/analysis.ts), the Plaid
transaction ingestion and account functions (src/unnamed/part_000) and the
batch re-analysis function analyzeAllTransactions (src/lib/openai/analysis.ts).

Strings are modelled as lists of characters.  The three JavaScript regular
expressions used by the parser are embedded as bespoke backtracking matchers
that follow the JS regex search order exactly: alternation tries the left
branch first, greedy quantifiers consume as much as possible and give back on
failure, lazy quantifiers consume as little as possible and grow on failure,
and an unanchored search tries start positions from left to right.
External services (Plaid, OpenAI, the database) are modelled as oracles
supplied through environment records; the functions return their result value
together with an explicit log of the external calls and writes they perform.
-/

namespace WriteOff

/-- The JavaScript whitespace class backslash-s, restricted to the characters
that can realistically occur in the text handled here (ASCII whitespace and
the no-break space). -/
def isWs (c : Char) : Bool :=
  c == ' ' || c == '\t' || c == '\n' || c == '\r' ||
  c == '\x0b' || c == '\x0c' || c == '\u00A0'

/-- The JavaScript word-character class backslash-w: ASCII letters, digits
and underscore. -/
def isWordChar (c : Char) : Bool :=
  c.isAlpha || c.isDigit || c == '_'

/-- The character class `[,\s]` used by the strict pattern. -/
def isSep (c : Char) : Bool :=
  c == ',' || isWs c

/-- Drop leading whitespace, as the left half of `String.prototype.trim`. -/
def trimLeft (cs : List Char) : List Char :=
  cs.dropWhile isWs

/-- Drop trailing whitespace, as the right half of `String.prototype.trim`. -/
def trimRight (cs : List Char) : List Char :=
  (cs.reverse.dropWhile isWs).reverse

/-- JavaScript `content.trim()`. -/
def jsTrim (cs : List Char) : List Char :=
  trimRight (trimLeft cs)

/-- Test `yes` followed by a word boundary at the start of the list:
the head of the regex `^yes\b` (case-insensitive).  The boundary after the
word character `s` requires the next character to be absent or a
non-word character. -/
def yesTokenAt (cs : List Char) : Bool :=
  match cs with
  | c1 :: c2 :: c3 :: rest =>
    c1.toLower == 'y' && c2.toLower == 'e' && c3.toLower == 's' &&
    (match rest with
     | [] => true
     | c4 :: _ => !isWordChar c4)
  | _ => false

/-- Line 46 of analysis.ts: `/^yes\b/i.test(content.trim())`. -/
def isYes (cs : List Char) : Bool :=
  yesTokenAt (jsTrim cs)

/-- `parseInt(ds, 10)` on a non-empty list of decimal digit characters. -/
def parseIntDigits (ds : List Char) : Nat :=
  ds.foldl (fun n c => 10 * n + (c.toNat - '0'.toNat)) 0

/-- `Math.min(100, Math.max(0, n))` on the parsed percentage. -/
def clampPct (n : Nat) : Nat :=
  min 100 (max 0 n)

/-- Clamped percentage digits converted to the 0-1 scale:
`Math.min(100, Math.max(0, parseInt(ds, 10))) / 100`. -/
def scoreOfDigits (ds : List Char) : ℚ :=
  (clampPct (parseIntDigits ds) : ℚ) / 100

/-- Lines 62-64 of analysis.ts:
`reason.charAt(0).toUpperCase() + reason.slice(1)` when the reason is
non-empty. -/
def capitalizeFirst (cs : List Char) : List Char :=
  match cs with
  | [] => []
  | c :: rest => c.toUpper :: rest

/-- `(\d{1,3})%` at the current position with exactly three digits. -/
def digitsPct3 (cs : List Char) : Option (List Char) :=
  match cs with
  | d1 :: d2 :: d3 :: c :: _ =>
    if d1.isDigit && d2.isDigit && d3.isDigit && c == '%' then some [d1, d2, d3]
    else none
  | _ => none

/-- `(\d{1,3})%` at the current position with exactly two digits. -/
def digitsPct2 (cs : List Char) : Option (List Char) :=
  match cs with
  | d1 :: d2 :: c :: _ =>
    if d1.isDigit && d2.isDigit && c == '%' then some [d1, d2]
    else none
  | _ => none

/-- `(\d{1,3})%` at the current position with exactly one digit. -/
def digitsPct1 (cs : List Char) : Option (List Char) :=
  match cs with
  | d1 :: c :: _ =>
    if d1.isDigit && c == '%' then some [d1]
    else none
  | _ => none

/-- `(\d{1,3})%` anchored at the current position; the quantifier is greedy,
so three digits are tried first, then two, then one.  Returns the digits
captured by the group. -/
def digitsPct (cs : List Char) : Option (List Char) :=
  match digitsPct3 cs with
  | some r => some r
  | none =>
    match digitsPct2 cs with
    | some r => some r
    | none => digitsPct1 cs

/-- Continuation of `[,\s]+(\d{1,3})%` after at least one separator has been
consumed.  Greedy: first try to extend the separator run, and only on failure
stop and match the digits at the current position (which then begins with a
separator character, so the digit match can only succeed after a maximal
run). -/
def sepDigitsPctMore (cs : List Char) : Option (List Char) :=
  match cs with
  | [] => none
  | c :: rest =>
    if isSep c then
      match sepDigitsPctMore rest with
      | some r => some r
      | none => digitsPct cs
    else digitsPct cs

/-- `[,\s]+(\d{1,3})%` anchored at the current position. -/
def sepDigitsPct (cs : List Char) : Option (List Char) :=
  match cs with
  | [] => none
  | c :: rest =>
    if isSep c then sepDigitsPctMore rest else none

/-- `(.+?)[,\s]+(\d{1,3})%` anchored at the current position.  The dot group
is lazy and the dot does not match a newline, so one character is consumed
first and the group grows only while the continuation fails.  Returns the
captures of the reason group and the digit group. -/
def dotSepDigits (cs : List Char) : Option (List Char × List Char) :=
  match cs with
  | [] => none
  | c :: rest =>
    if c == '\n' then none
    else
      match sepDigitsPct rest with
      | some ds => some ([c], ds)
      | none =>
        match dotSepDigits rest with
        | some (dots, ds) => some (c :: dots, ds)
        | none => none

/-- Continuation of the leading `[,\s]+` of the strict pattern after at least
one separator has been consumed, followed by `(.+?)[,\s]+(\d{1,3})%`.
Greedy: extend the separator run first; on failure stop and let the lazy dot
start at the current character. -/
def sep1More (cs : List Char) : Option (List Char × List Char) :=
  match cs with
  | [] => none
  | c :: rest =>
    if isSep c then
      match sep1More rest with
      | some r => some r
      | none => dotSepDigits cs
    else dotSepDigits cs

/-- `[,\s]+(.+?)[,\s]+(\d{1,3})%` anchored at the current position. -/
def sep1DotSepDigits (cs : List Char) : Option (List Char × List Char) :=
  match cs with
  | [] => none
  | c :: rest =>
    if isSep c then sep1More rest else none

/-- `^(yes|no)` case-insensitive.  The branches are tried left to right; they
start with different letters, so no backtracking across the alternation can
change the outcome.  Returns the rest of the input. -/
def headYesNo (cs : List Char) : Option (List Char) :=
  match cs with
  | c1 :: c2 :: c3 :: rest =>
    if c1.toLower == 'y' && c2.toLower == 'e' && c3.toLower == 's' then some rest
    else if c1.toLower == 'n' && c2.toLower == 'o' then some (c3 :: rest)
    else none
  | [c1, c2] =>
    if c1.toLower == 'n' && c2.toLower == 'o' then some [] else none
  | _ => none

/-- Line 50 of analysis.ts:
`content.match(/^(yes|no)[,\s]+(.+?)[,\s]+(\d{1,3})%/i)`.
Returns the captures of groups 2 (the reason) and 3 (the digits). -/
def strictMatch (cs : List Char) : Option (List Char × List Char) :=
  match headYesNo cs with
  | some rest => sep1DotSepDigits rest
  | none => none

/-- `\s*%` anchored at the current position.  The star is greedy; stopping the
run early would require the whitespace character itself to be the percent
sign, which is impossible, so only the maximal run is ever followed by the
percent test. -/
def wsPct (cs : List Char) : Bool :=
  match cs with
  | [] => false
  | c :: rest => if isWs c then wsPct rest else c == '%'

/-- `(\d{1,3})\s*%` at the current position with exactly three digits. -/
def digitsWsPct3 (cs : List Char) : Option (List Char) :=
  match cs with
  | d1 :: d2 :: d3 :: rest =>
    if d1.isDigit && d2.isDigit && d3.isDigit && wsPct rest then some [d1, d2, d3]
    else none
  | _ => none

/-- `(\d{1,3})\s*%` at the current position with exactly two digits. -/
def digitsWsPct2 (cs : List Char) : Option (List Char) :=
  match cs with
  | d1 :: d2 :: rest =>
    if d1.isDigit && d2.isDigit && wsPct rest then some [d1, d2]
    else none
  | _ => none

/-- `(\d{1,3})\s*%` at the current position with exactly one digit. -/
def digitsWsPct1 (cs : List Char) : Option (List Char) :=
  match cs with
  | d1 :: rest =>
    if d1.isDigit && wsPct rest then some [d1]
    else none
  | _ => none

/-- `(\d{1,3})\s*%` anchored at the current position, greedy digits. -/
def digitsWsPct (cs : List Char) : Option (List Char) :=
  match digitsWsPct3 cs with
  | some r => some r
  | none =>
    match digitsWsPct2 cs with
    | some r => some r
    | none => digitsWsPct1 cs

/-- Line 56 of analysis.ts: `content.match(/(\d{1,3})\s*%/)`.  The search is
unanchored, so start positions are tried from left to right and the leftmost
match wins.  Returns the digits captured by group 1. -/
def searchScore (cs : List Char) : Option (List Char) :=
  match cs with
  | [] => none
  | c :: rest =>
    match digitsWsPct (c :: rest) with
    | some ds => some ds
    | none => searchScore rest

/-- `\s*\d{1,3}%` anchored at the current position.  The star is greedy;
giving back a whitespace character cannot help because whitespace is never a
digit. -/
def wsDigitsPct (cs : List Char) : Bool :=
  match cs with
  | [] => false
  | c :: rest =>
    if isWs c then wsDigitsPct rest else (digitsPct cs).isSome

/-- `,\s*\d{1,3}%` anchored at the current position. -/
def commaWsDigits (cs : List Char) : Bool :=
  match cs with
  | ',' :: rest => wsDigitsPct rest
  | _ => false

/-- `(.+?),\s*\d{1,3}%` anchored at the current position; the dot group is
lazy and the dot does not match a newline.  Returns the capture of the
group. -/
def dotCommaDigits (cs : List Char) : Option (List Char) :=
  match cs with
  | [] => none
  | c :: rest =>
    if c == '\n' then none
    else if commaWsDigits rest then some [c]
    else
      match dotCommaDigits rest with
      | some dots => some (c :: dots)
      | none => none

/-- `\s*(.+?),\s*\d{1,3}%` anchored at the current position.  The leading
star is greedy, so whitespace is consumed first and given back one character
at a time to the lazy dot when the continuation fails. -/
def wsDotCommaDigits (cs : List Char) : Option (List Char) :=
  match cs with
  | [] => none
  | c :: rest =>
    if isWs c then
      match wsDotCommaDigits rest with
      | some r => some r
      | none => dotCommaDigits cs
    else dotCommaDigits cs

/-- Continuation of `^[^,]+,...` inside the greedy `[^,]+` run: scan to the
first comma.  Stopping the run before a non-comma character would make the
comma literal fail, so the run extends exactly to the first comma. -/
def nonCommaMore (cs : List Char) : Option (List Char) :=
  match cs with
  | [] => none
  | c :: rest =>
    if c == ',' then wsDotCommaDigits rest else nonCommaMore rest

/-- Line 58 of analysis.ts:
`content.match(/^[^,]+,\s*(.+?),\s*\d{1,3}%/)`.
Returns the capture of group 1 (the fallback reason). -/
def fallbackReason (cs : List Char) : Option (List Char) :=
  match cs with
  | [] => none
  | c :: rest =>
    if c == ',' then none else nonCommaMore rest

/-- The record returned by the response parsing step of
`analyzeTransactionDeductibility` (lines 66-71 of analysis.ts).  The score is
`none` when the JavaScript value is `null`. -/
structure ParseResult where
  success : Bool
  is_deductible : Bool
  deductible_reason : String
  deduction_score : Option ℚ
deriving DecidableEq

/-- Lines 46-71 of analysis.ts: parse an OpenAI reply `content` into a
structured verdict.  The strict pattern is tried first; otherwise the
fallback score search and the fallback reason pattern are used, with the
literal default reason when the latter fails.  The final reason is
capitalized when non-empty. -/
def parseResponse (content : String) : ParseResult :=
  let cs := content.data
  let isYesFlag := isYes cs
  match strictMatch cs with
  | some (g2, g3) =>
    { success := true
      is_deductible := isYesFlag
      deductible_reason := String.mk (capitalizeFirst (jsTrim g2))
      deduction_score := some (scoreOfDigits g3) }
  | none =>
    { success := true
      is_deductible := isYesFlag
      deductible_reason := String.mk (capitalizeFirst
        (match fallbackReason cs with
         | some g1 => jsTrim g1
         | none => ("No reason provided").data))
      deduction_score := (searchScore cs).map scoreOfDigits }

/-- Outcome of the OpenAI chat-completion call made inside
`analyzeTransactionDeductibility` (lines 27-43 of analysis.ts): either the
API returned a message whose content may be null, or the call threw. -/
inductive LLMOutcome where
  | reply (content : Option String)
  | threw
deriving DecidableEq

/-- Return value of `analyzeTransactionDeductibility`: the parsed verdict
with success true, or the catch branch value with success false (lines 72-75
of analysis.ts). -/
inductive AnalysisResult where
  | success (r : ParseResult)
  | failure
deriving DecidableEq

/-- Lines 5-76 of analysis.ts, with the OpenAI call abstracted as an oracle
outcome.  A null message content is replaced by the empty string
(`response.choices[0].message.content || ''`); any exception inside the try
block is caught and turned into the failure value, so the function itself
never throws. -/
def analyzeTransactionDeductibility : LLMOutcome → AnalysisResult
  | LLMOutcome.reply c => AnalysisResult.success (parseResponse (c.getD ""))
  | LLMOutcome.threw => AnalysisResult.failure

/-- JavaScript `o || d` for an optional string `o`: null, undefined and the
empty string are falsy. -/
def jsStrOr (o : Option String) (d : String) : String :=
  match o with
  | none => d
  | some s => if s == "" then d else s

/-- JavaScript truthiness of an optional string: `none` when the value is
null, undefined or the empty string. -/
def jsStrTruthy (o : Option String) : Option String :=
  match o with
  | none => none
  | some s => if s == "" then none else some s

/-- The stored user record, restricted to the field the Plaid functions
read. -/
structure User where
  plaid_token : Option String
deriving DecidableEq

/-- `user?.plaid_token` truthiness for the stored user record returned by
`getUser` (part_000 lines 13-19): `none` when there is no user record, no
token, or an empty-string token. -/
def tokenOf (u : Option User) : Option String :=
  match u with
  | none => none
  | some usr => jsStrTruthy usr.plaid_token

/-- A transaction as returned by the Plaid `transactionsGet` call
(part_000 lines 49-58): the amount may be negative, the merchant name may be
null and the category list may be null. -/
structure PlaidTxn where
  transaction_id : String
  date : String
  amount : ℚ
  merchant_name : Option String
  category : Option (List String)
deriving DecidableEq

/-- The object passed to `analyzeTransactionDeductibility` from the ingestion
loop (part_000 lines 75-80). -/
structure AnalyzeInput where
  merchant_name : String
  amount : ℚ
  category : String
  date : String
deriving DecidableEq

/-- Outcome of the `await analyzeTransactionDeductibility(...)` call as seen
by the ingestion loop: the call returned a value, or it threw and the
enclosing catch (part_000 lines 100-108) runs. -/
inductive CallOutcome where
  | returns (r : AnalysisResult)
  | throws
deriving DecidableEq

/-- The record passed to `addTransaction` (part_000 lines 62-110).  All
three classification fields are set on every path before the record is
persisted; a `none` score models a null score copied from a successful
analysis. -/
structure TransactionData where
  trans_id : String
  account_id : String
  date : String
  amount : ℚ
  merchant_name : String
  category : String
  is_deductible : Bool
  deductible_reason : String
  deduction_score : Option ℚ
deriving DecidableEq

/-- The environment of oracles for one run of `fetchTransactions`
(part_000 lines 8-130): the stored user, the account ids already present in
the database, the Plaid account list, the Plaid transactions per account,
the outcome of each classification call, and the request id returned by each
`transactionsGet`. -/
structure FetchEnv where
  user : Option User
  dbAccounts : List String
  accounts : List String
  txns : String → List PlaidTxn
  classify : AnalyzeInput → CallOutcome
  request_id : String → String

/-- The normalized fields handed to the classifier (part_000 lines 62-80):
absolute amount, default merchant name and comma-joined default category. -/
def analyzeInputOf (txn : PlaidTxn) : AnalyzeInput :=
  { merchant_name := jsStrOr txn.merchant_name ("Unknown Merchant")
    amount := |txn.amount|
    category := jsStrOr (txn.category.map (String.intercalate (", "))) ("Uncategorized")
    date := txn.date }

/-- The record persisted for one fetched transaction (part_000 lines 62-110):
the normalized fields merged with the classification verdict, where an
unsuccessful analysis result or a thrown analysis call is replaced by the
conservative manual-review default. -/
def classifiedTxn (classify : AnalyzeInput → CallOutcome) (account_id : String)
    (txn : PlaidTxn) : TransactionData :=
  let inp := analyzeInputOf txn
  let verdict : Bool × String × Option ℚ :=
    match classify inp with
    | CallOutcome.returns (AnalysisResult.success r) =>
      (r.is_deductible, r.deductible_reason, r.deduction_score)
    | CallOutcome.returns AnalysisResult.failure =>
      (false, "Analysis failed - requires manual review", some (0 : ℚ))
    | CallOutcome.throws =>
      (false, "Analysis error - requires manual review", some (0 : ℚ))
  { trans_id := txn.transaction_id
    account_id := account_id
    date := txn.date
    amount := |txn.amount|
    merchant_name := inp.merchant_name
    category := inp.category
    is_deductible := verdict.1
    deductible_reason := verdict.2.1
    deduction_score := verdict.2.2 }

/-- Accumulated effects of the per-account transaction loop. -/
structure TxnLoopOut where
  count : Nat
  adds : List TransactionData
  cursorUpdates : List (String × String)
deriving DecidableEq

/-- The transaction loop of part_000 lines 46-122: for each account, fetch
its transactions, classify and persist each one, add the batch size to the
running count, and record a cursor update when the request id is truthy. -/
def txnsLoop (env : FetchEnv) : List String → TxnLoopOut
  | [] => { count := 0, adds := [], cursorUpdates := [] }
  | a :: rest =>
    let tail := txnsLoop env rest
    { count := (env.txns a).length + tail.count
      adds := (env.txns a).map (classifiedTxn env.classify a) ++ tail.adds
      cursorUpdates :=
        (if env.request_id a == "" then [] else [(a, env.request_id a)]) ++
          tail.cursorUpdates }

/-- The account loop of part_000 lines 33-43: the database account list is
re-queried on every iteration, so an account added earlier in the loop is
seen by later iterations.  Returns the final database list and the list of
`addAccount` calls. -/
def accountsLoop : List String → List String → List String × List String
  | db, [] => (db, [])
  | db, a :: rest =>
    if db.contains a then accountsLoop db rest
    else
      let out := accountsLoop (db ++ [a]) rest
      (out.1, a :: out.2)

/-- Log of the external calls and writes performed by one run of
`fetchTransactions`. -/
structure FetchLog where
  plaidApiCalls : List String
  addAccountCalls : List String
  addTransactionCalls : List TransactionData
  updateAccountCalls : List (String × String)
deriving DecidableEq

/-- The log of a run that made no external call and no write at all. -/
def emptyFetchLog : FetchLog :=
  { plaidApiCalls := [], addAccountCalls := [], addTransactionCalls := [],
    updateAccountCalls := [] }

/-- Return value of `fetchTransactions`: success with the running count, or
the typed failure value with its error string. -/
inductive FetchResult where
  | ok (count : Nat)
  | err (error : String)
deriving DecidableEq

/-- part_000 lines 8-130 with the external services abstracted as oracles
that return: check the stored token first and return the typed failure
without any call or write when it is missing; otherwise list the accounts,
persist the unseen ones, then classify and persist every fetched transaction
and return the running count. -/
def fetchTransactions (env : FetchEnv) : FetchResult × FetchLog :=
  match tokenOf env.user with
  | none => (FetchResult.err "No Plaid token found", emptyFetchLog)
  | some _ =>
    let added := (accountsLoop env.dbAccounts env.accounts).2
    let out := txnsLoop env env.accounts
    (FetchResult.ok out.count,
     { plaidApiCalls :=
         "accountsGet" :: env.accounts.map (fun a => ("transactionsGet ") ++ a)
       addAccountCalls := added
       addTransactionCalls := out.adds
       updateAccountCalls := out.cursorUpdates })

/-- The total number of transactions fetched from the aggregation API: the
sum of the per-account batch sizes. -/
def totalFetched (env : FetchEnv) : Nat :=
  (env.accounts.map (fun a => (env.txns a).length)).sum

/-- Environment for one run of `getAccountBalances` (part_000 lines
132-148). -/
structure BalancesEnv where
  user : Option User
  accounts : List String

/-- Generic result value of the two read-only Plaid functions. -/
inductive PlaidResult (α : Type) where
  | ok (val : α)
  | err (error : String)
deriving DecidableEq

/-- part_000 lines 132-148: return the typed failure without any Plaid call
when the stored token is missing, otherwise call `accountsGet` and return
the accounts.  The second component is the list of Plaid calls made. -/
def getAccountBalances (env : BalancesEnv) : PlaidResult (List String) × List String :=
  match tokenOf env.user with
  | none => (PlaidResult.err "No Plaid token found", [])
  | some _ => (PlaidResult.ok env.accounts, ["accountsGet"])

/-- Environment for one run of `getInstitutionInfo` (part_000 lines
150-175): the stored user, the institution id returned by `itemGet` (null
modelled by `none`, and the empty string is falsy), and the institution
returned by `institutionsGetById`. -/
structure InstitutionEnv where
  user : Option User
  institution_id : Option String
  institution : String → String

/-- part_000 lines 150-175: return the typed failure without any Plaid call
when the stored token is missing; otherwise call `itemGet`, fail when the
item has no truthy institution id, and otherwise fetch the institution.  The
second component is the list of Plaid calls made. -/
def getInstitutionInfo (env : InstitutionEnv) : PlaidResult String × List String :=
  match tokenOf env.user with
  | none => (PlaidResult.err "No Plaid token found", [])
  | some _ =>
    match jsStrTruthy env.institution_id with
    | none => (PlaidResult.err "No institution ID found", ["itemGet"])
    | some iid =>
      (PlaidResult.ok (env.institution iid), ["itemGet", ("institutionsGetById ") ++ iid])

/-- A stored transaction row as read by `analyzeAllTransactions`
(analysis.ts lines 78-100), restricted to the fields it uses. -/
structure StoredTxn where
  trans_id : String
  merchant_name : String
  amount : ℚ
  category : String
  date : String
deriving DecidableEq

/-- Environment for one run of `analyzeAllTransactions`: the stored
transaction list returned by `getTransactions` (null modelled by `none`) and
the OpenAI outcome for each transaction. -/
structure AnalyzeAllEnv where
  transactions : Option (List StoredTxn)
  llm : StoredTxn → LLMOutcome

/-- The update record passed to `updateTransaction` (analysis.ts lines
88-92).  A `none` score models the field being `undefined`, that is, omitted
from the update. -/
structure UpdatePayload where
  is_deductible : Bool
  deductible_reason : String
  deduction_score : Option ℚ
deriving DecidableEq

/-- JavaScript `q || undefined` for a nullable number `q`: null and zero are
falsy and coerce to undefined (the omitted field). -/
def jsNumTruthy (q : Option ℚ) : Option ℚ :=
  match q with
  | none => none
  | some x => if x = 0 then none else some x

/-- Return value of `analyzeAllTransactions`. -/
inductive AnalyzeAllResult where
  | ok (analyzed : Nat) (total : Nat)
  | err (error : String)
deriving DecidableEq

/-- The `updateTransaction` call issued for one stored transaction
(analysis.ts lines 85-95): present exactly when the analysis succeeds, keyed
by the transaction id, with the score coerced to undefined when it is null
or zero. -/
def updateFor (llm : StoredTxn → LLMOutcome) (t : StoredTxn) :
    Option (String × UpdatePayload) :=
  match analyzeTransactionDeductibility (llm t) with
  | AnalysisResult.success r =>
    some (t.trans_id,
      { is_deductible := r.is_deductible
        deductible_reason := r.deductible_reason
        deduction_score := jsNumTruthy r.deduction_score })
  | AnalysisResult.failure => none

/-- analysis.ts lines 78-105: fail when there are no stored transactions;
otherwise analyze every transaction, update the stored row for each
successful analysis, and return the number of successful analyses together
with the total.  The second component is the list of update calls. -/
def analyzeAllTransactions (env : AnalyzeAllEnv) :
    AnalyzeAllResult × List (String × UpdatePayload) :=
  match env.transactions with
  | none => (AnalyzeAllResult.err "No transactions found", [])
  | some txs =>
    if txs.isEmpty then (AnalyzeAllResult.err "No transactions found", [])
    else
      (AnalyzeAllResult.ok
        ((txs.filter (fun t =>
          match analyzeTransactionDeductibility (env.llm t) with
          | AnalysisResult.success _ => true
          | AnalysisResult.failure => false)).length)
        txs.length,
       txs.filterMap (updateFor env.llm))

/-- A concrete Plaid transaction used by the witness runs. -/
def txn0 : PlaidTxn :=
  { transaction_id := "t1", date := "2024-01-05", amount := -(25 : ℚ) / 2,
    merchant_name := some ("Staples"), category := some ["Office", "Supplies"] }

/-- A concrete ingestion environment with a stored token, one account and
one transaction whose classification call returns the failure value. -/
def envFail : FetchEnv :=
  { user := some { plaid_token := some ("tok") }
    dbAccounts := []
    accounts := ["acc1"]
    txns := fun _ => [txn0]
    classify := fun _ => CallOutcome.returns AnalysisResult.failure
    request_id := fun _ => "" }

/-- A fetch environment whose user record is missing entirely. -/
def feNoTok : FetchEnv :=
  { user := none, dbAccounts := [], accounts := [], txns := fun _ => [],
    classify := fun _ => CallOutcome.throws, request_id := fun _ => "" }

/-- A balances environment whose user has an empty-string token, which is
falsy in JavaScript. -/
def beNoTok : BalancesEnv :=
  { user := some { plaid_token := some "" }, accounts := ["a"] }

/-- An institution environment whose user record has a null token. -/
def ieNoTok : InstitutionEnv :=
  { user := some { plaid_token := none }, institution_id := some ("ins_1"),
    institution := fun _ => "First Bank" }

/-- A concrete stored transaction for the re-analysis witness run. -/
def storedTxn0 : StoredTxn :=
  { trans_id := "t9", merchant_name := "Staples", amount := (50 : ℚ),
    category := "Office", date := "2024-01-05" }

/-- The OpenAI reply used by the re-analysis witness run: a well-formed
verdict with a zero confidence score. -/
def llmReply0 : String := "Yes, test reason, 0%"

/-- A concrete re-analysis environment with one stored transaction whose
analysis succeeds with a zero score. -/
def envZeroScore : AnalyzeAllEnv :=
  { transactions := some [storedTxn0]
    llm := fun _ => LLMOutcome.reply (some llmReply0) }

/-!
## Claim theorems
-/

/-- Claim C1: the parser inside analyzeTransactionDeductibility returns
exactly the specified outputs on the two canonical inputs: parsing
"Yes, Office supplies for business operations, 85%" yields is_deductible
true, reason "Office supplies for business operations" and score 0.85, and
parsing "No, Personal entertainment expense, 95%" yields is_deductible
false, reason "Personal entertainment expense" and score 0.95, the first
letter of the final reason being capitalized. -/
theorem c1_canonical_inputs :
    parseResponse ("Yes, Office supplies for business operations, 85%") =
      { success := true, is_deductible := true,
        deductible_reason := "Office supplies for business operations",
        deduction_score := some ((85 : ℚ) / 100) } ∧
    parseResponse ("No, Personal entertainment expense, 95%") =
      { success := true, is_deductible := false,
        deductible_reason := "Personal entertainment expense",
        deduction_score := some ((95 : ℚ) / 100) } := by
  have h1 : parseResponse ("Yes, Office supplies for business operations, 85%") =
      { success := true, is_deductible := true,
        deductible_reason := "Office supplies for business operations",
        deduction_score := some (scoreOfDigits ['8', '5']) } := rfl
  have h2 : parseResponse ("No, Personal entertainment expense, 95%") =
      { success := true, is_deductible := false,
        deductible_reason := "Personal entertainment expense",
        deduction_score := some (scoreOfDigits ['9', '5']) } := rfl
  rw [h1, h2]
  norm_num [ParseResult.mk.injEq, scoreOfDigits,
    show clampPct (parseIntDigits ['8', '5']) = 85 from by decide,
    show clampPct (parseIntDigits ['9', '5']) = 95 from by decide]

/-- Claim C6: parsing the empty string returns is_deductible false, reason
"No reason provided" and a null score. -/
theorem c6_empty_input :
    parseResponse "" =
      { success := true, is_deductible := false,
        deductible_reason := "No reason provided",
        deduction_score := none } := by
  decide

/-- Claim C3, counterexample: on "yes this seems fine 60%" the strict
pattern does match (the separator class also matches plain spaces), and the
reason is "This seems fine", not the default "No reason provided" required
by the claim. -/
theorem c3_counterexample :
    (strictMatch (("yes this seems fine 60%").data)).isSome = true ∧
    (parseResponse ("yes this seems fine 60%")).deductible_reason = "This seems fine" ∧
    (parseResponse ("yes this seems fine 60%")).deductible_reason ≠ "No reason provided" := by
  decide

/-- Claim C3 as amended: parsing the comma-free input
"yes this seems fine 60%" takes the strict path, because the class `[,\s]+`
of the strict pattern matches the plain spaces; the match yields score 0.60
and reason "this seems fine", capitalized to "This seems fine", and the
fallback default reason is not used. -/
theorem c3_amended :
    (strictMatch (("yes this seems fine 60%").data)).isSome = true ∧
    parseResponse ("yes this seems fine 60%") =
      { success := true, is_deductible := true,
        deductible_reason := "This seems fine",
        deduction_score := some ((60 : ℚ) / 100) } := by
  have h : parseResponse ("yes this seems fine 60%") =
      { success := true, is_deductible := true,
        deductible_reason := "This seems fine",
        deduction_score := some (scoreOfDigits ['6', '0']) } := rfl
  refine ⟨by decide, ?_⟩
  rw [h]
  norm_num [ParseResult.mk.injEq, scoreOfDigits,
    show clampPct (parseIntDigits ['6', '0']) = 60 from by decide]

/-- The score field of the parse result, characterized by the two branches of
the parser. -/
lemma parseResponse_score (s : String) :
    (parseResponse s).deduction_score =
      match strictMatch s.data with
      | some (_, g3) => some (scoreOfDigits g3)
      | none => (searchScore s.data).map scoreOfDigits := by
  unfold parseResponse
  dsimp only
  cases h : strictMatch s.data with
  | none => rfl
  | some p => obtain ⟨g2, g3⟩ := p; rfl

/-- The success flag of the parse result is true on both branches. -/
lemma parseResponse_success (s : String) : (parseResponse s).success = true := by
  unfold parseResponse
  dsimp only
  cases h : strictMatch s.data with
  | none => rfl
  | some p => obtain ⟨g2, g3⟩ := p; rfl

/-- The verdict field of the parse result comes from the trimmed yes test on
both branches. -/
lemma parseResponse_is_deductible (s : String) :
    (parseResponse s).is_deductible = isYes s.data := by
  unfold parseResponse
  dsimp only
  cases h : strictMatch s.data with
  | none => rfl
  | some p => obtain ⟨g2, g3⟩ := p; rfl

/-- Every score produced from captured digits lies in the closed unit
interval, because the parsed percentage is clamped to at most 100 before the
division. -/
lemma scoreOfDigits_bounds (ds : List Char) :
    0 ≤ scoreOfDigits ds ∧ scoreOfDigits ds ≤ 1 := by
  unfold scoreOfDigits
  constructor
  · positivity
  · rw [div_le_one (by norm_num)]
    have h : clampPct (parseIntDigits ds) ≤ 100 := min_le_left _ _
    calc ((clampPct (parseIntDigits ds) : ℚ)) ≤ (100 : ℚ) := by exact_mod_cast h
      _ = 100 := rfl

/-- Claim C2: whenever the returned deduction_score is non-null it lies in
the closed interval from 0 to 1, and an out-of-range percentage such as 150%
is clamped to 100 before dividing by 100, producing a score of exactly 1, on
both the strict-pattern path and the fallback path. -/
theorem c2_score_clamped :
    (∀ (s : String) (q : ℚ),
      (parseResponse s).deduction_score = some q → 0 ≤ q ∧ q ≤ 1) ∧
    (strictMatch (("Yes, big expense, 150%").data)).isSome = true ∧
    (parseResponse ("Yes, big expense, 150%")).deduction_score = some 1 ∧
    (strictMatch (("150%").data)).isSome = false ∧
    (parseResponse ("150%")).deduction_score = some 1 := by
  refine ⟨?_, by decide, ?_, by decide, ?_⟩
  · intro s q h
    rw [parseResponse_score s] at h
    revert h
    cases hm : strictMatch s.data with
    | some p =>
      intro h
      obtain ⟨g2, g3⟩ := p
      simp only [Option.some.injEq] at h
      exact h ▸ scoreOfDigits_bounds g3
    | none =>
      intro h
      rcases Option.map_eq_some'.mp h with ⟨ds, _, hq⟩
      exact hq ▸ scoreOfDigits_bounds ds
  · have h : (parseResponse ("Yes, big expense, 150%")).deduction_score =
        some (scoreOfDigits ['1', '5', '0']) := rfl
    rw [h]
    norm_num [scoreOfDigits,
      show clampPct (parseIntDigits ['1', '5', '0']) = 100 from by decide]
  · have h : (parseResponse ("150%")).deduction_score =
        some (scoreOfDigits ['1', '5', '0']) := rfl
    rw [h]
    norm_num [scoreOfDigits,
      show clampPct (parseIntDigits ['1', '5', '0']) = 100 from by decide]

/-- Witness for C2 at the concrete fallback input 150 percent. -/
theorem c2_score_clamped_witness :
    (parseResponse ("150%")).deduction_score = some 1 ∧ 0 ≤ (1 : ℚ) ∧ (1 : ℚ) ≤ 1 :=
  ⟨c2_score_clamped.2.2.2.2, c2_score_clamped.1 ("150%") 1 c2_score_clamped.2.2.2.2⟩

/-- Claim C8: the parsing step never fails: success is always true, and the
returned deduction_score is null only when the fallback percentage search
finds no percentage pattern anywhere in the text. -/
theorem c8_never_fails (s : String) :
    (parseResponse s).success = true ∧
    ((parseResponse s).deduction_score = none → searchScore s.data = none) := by
  refine ⟨parseResponse_success s, ?_⟩
  intro h
  rw [parseResponse_score s] at h
  revert h
  cases hm : strictMatch s.data with
  | some p =>
    intro h
    obtain ⟨g2, g3⟩ := p
    exact absurd h (by simp)
  | none =>
    intro h
    exact Option.map_eq_none'.mp h

/-- Witness for C8 at the empty string, where the score is indeed null and
no percentage pattern occurs. -/
theorem c8_never_fails_witness :
    (parseResponse "").success = true ∧
    ((parseResponse "").deduction_score = none → searchScore ("" : String).data = none) :=
  c8_never_fails ""

/-- The spec-side reading of "the string starts with the case-insensitive
token yes": after skipping leading whitespace, the next characters are
y, e, s in any letter case, followed by the end of the string or by a
non-word character. -/
def startsWithYesToken (s : String) : Bool :=
  yesTokenAt (s.data.dropWhile isWs)

/-- A whitespace character is one of the seven members of the class. -/
lemma isWs_elim (a : Char) (h : isWs a = true) :
    a = ' ' ∨ a = '\t' ∨ a = '\n' ∨ a = '\r' ∨
    a = '\x0b' ∨ a = '\x0c' ∨ a = ' ' := by
  simpa [isWs, or_assoc] using h

/-- No whitespace character lowercases to the letter s. -/
lemma isWs_toLower_ne_s (a : Char) (h : isWs a = true) :
    (a.toLower == 's') = false := by
  rcases isWs_elim a h with h1 | h1 | h1 | h1 | h1 | h1 | h1 <;> subst h1 <;> decide

/-- No whitespace character is a word character. -/
lemma isWs_not_word (a : Char) (h : isWs a = true) :
    isWordChar a = false := by
  rcases isWs_elim a h with h1 | h1 | h1 | h1 | h1 | h1 | h1 <;> subst h1 <;> decide

/-- Appending a single whitespace character does not change the yes-token
test: the test reads at most four characters, and in the two shapes where
the appended character is read it is rejected as the letter s and accepted
as a word boundary respectively. -/
lemma yesTokenAt_append_ws (l : List Char) (a : Char) (h : isWs a = true) :
    yesTokenAt (l ++ [a]) = yesTokenAt l := by
  match l with
  | [] => simp [yesTokenAt]
  | [c1] => simp [yesTokenAt]
  | [c1, c2] => simp [yesTokenAt, isWs_toLower_ne_s a h]
  | [c1, c2, c3] => simp [yesTokenAt, isWs_not_word a h]
  | c1 :: c2 :: c3 :: c4 :: t => simp [yesTokenAt]

/-- Dropping the trailing whitespace run commutes with appending one
character. -/
lemma trimRight_append (l : List Char) (a : Char) :
    trimRight (l ++ [a]) = if isWs a then trimRight l else l ++ [a] := by
  by_cases h : isWs a
  · simp [trimRight, h]
  · simp [trimRight, h]

/-- The yes-token test ignores trailing whitespace. -/
lemma yesTokenAt_trimRight (l : List Char) :
    yesTokenAt (trimRight l) = yesTokenAt l := by
  induction l using List.reverseRecOn with
  | nil => rfl
  | append_singleton l a ih =>
    rw [trimRight_append]
    by_cases h : isWs a
    · rw [if_pos h, ih, yesTokenAt_append_ws l a h]
    · rw [if_neg h]

/-- Claim C7: for every input string the parser verdict is_deductible is
true exactly when the string starts with the case-insensitive token yes
(leading whitespace skipped, and the token delimited by a word boundary),
and false otherwise, including for empty or malformed strings: there is no
distinct unknown state. -/
theorem c7_verdict_iff_yes_token (s : String) :
    (parseResponse s).is_deductible = startsWithYesToken s := by
  rw [parseResponse_is_deductible s]
  unfold isYes jsTrim trimLeft startsWithYesToken
  exact yesTokenAt_trimRight _

/-- The running count of the transaction loop is the sum of the per-account
batch sizes. -/
lemma txnsLoop_count (env : FetchEnv) (accts : List String) :
    (txnsLoop env accts).count = (accts.map (fun a => (env.txns a).length)).sum := by
  induction accts with
  | nil => rfl
  | cons a rest ih => simp [txnsLoop, ih]

/-- The transaction loop issues one addTransaction call per fetched
transaction. -/
lemma txnsLoop_adds_length (env : FetchEnv) (accts : List String) :
    (txnsLoop env accts).adds.length = (accts.map (fun a => (env.txns a).length)).sum := by
  induction accts with
  | nil => rfl
  | cons a rest ih => simp [txnsLoop, ih]

/-- Every transaction fetched for a listed account is persisted, as the
classified record built for it. -/
lemma txnsLoop_mem_adds (env : FetchEnv) (accts : List String) (a : String)
    (txn : PlaidTxn) (ha : a ∈ accts) (ht : txn ∈ env.txns a) :
    classifiedTxn env.classify a txn ∈ (txnsLoop env accts).adds := by
  induction accts with
  | nil => cases ha
  | cons b rest ih =>
    rcases List.mem_cons.mp ha with hb | hb
    · subst hb
      simp only [txnsLoop, List.mem_append]
      exact Or.inl (List.mem_map_of_mem _ ht)
    · simp only [txnsLoop, List.mem_append]
      exact Or.inr (ih hb)

/-- Claim C4: for a user with a stored token, fetchTransactions performs
exactly one addTransaction call per transaction fetched from the
aggregation API and returns success with count equal to that total,
whatever the classification oracle does. -/
theorem c4_count_equals_fetched (env : FetchEnv)
    (h : (tokenOf env.user).isSome = true) :
    (fetchTransactions env).1 = FetchResult.ok (totalFetched env) ∧
    (fetchTransactions env).2.addTransactionCalls.length = totalFetched env := by
  obtain ⟨t, ht⟩ := Option.isSome_iff_exists.mp h
  unfold fetchTransactions
  rw [ht]
  dsimp only
  constructor
  · rw [txnsLoop_count]; rfl
  · rw [txnsLoop_adds_length]; rfl

/-- Witness for C4: the concrete one-account one-transaction run with a
failing classifier persists exactly one transaction and returns count 1. -/
theorem c4_count_equals_fetched_witness :
    (tokenOf envFail.user).isSome = true ∧
    ((fetchTransactions envFail).1 = FetchResult.ok (totalFetched envFail) ∧
     (fetchTransactions envFail).2.addTransactionCalls.length = totalFetched envFail) :=
  ⟨by decide, c4_count_equals_fetched envFail (by decide)⟩

/-- Claim C5, counterexample: in the concrete failing-classification run the
transaction is persisted, but its stored reason is the literal
"Analysis failed - requires manual review", which is not the string
"requires manual review" stated by the claim. -/
theorem c5_counterexample :
    (fetchTransactions envFail).2.addTransactionCalls.map TransactionData.deductible_reason
      = ["Analysis failed - requires manual review"] ∧
    ("Analysis failed - requires manual review" : String) ≠ "requires manual review" := by
  constructor
  · rfl
  · decide

/-- Claim C5 as amended: any failure of the per-transaction classification
call (an unsuccessful result or a throw) is swallowed: the transaction is
still persisted with the conservative default verdict is_deductible false
and score 0, with reason "Analysis failed - requires manual review" when
the call returns the failure value and "Analysis error - requires manual
review" when it throws, and the batch still completes with the full count. -/
theorem c5_failure_swallowed (env : FetchEnv)
    (h : (tokenOf env.user).isSome = true) (a : String) (txn : PlaidTxn)
    (ha : a ∈ env.accounts) (ht : txn ∈ env.txns a)
    (hfail : env.classify (analyzeInputOf txn) = CallOutcome.returns AnalysisResult.failure ∨
             env.classify (analyzeInputOf txn) = CallOutcome.throws) :
    classifiedTxn env.classify a txn ∈ (fetchTransactions env).2.addTransactionCalls ∧
    (classifiedTxn env.classify a txn).is_deductible = false ∧
    (classifiedTxn env.classify a txn).deduction_score = some 0 ∧
    ((env.classify (analyzeInputOf txn) = CallOutcome.returns AnalysisResult.failure →
      (classifiedTxn env.classify a txn).deductible_reason =
        "Analysis failed - requires manual review") ∧
     (env.classify (analyzeInputOf txn) = CallOutcome.throws →
      (classifiedTxn env.classify a txn).deductible_reason =
        "Analysis error - requires manual review")) ∧
    (fetchTransactions env).1 = FetchResult.ok (totalFetched env) := by
  obtain ⟨t, htok⟩ := Option.isSome_iff_exists.mp h
  have hmem : classifiedTxn env.classify a txn ∈ (txnsLoop env env.accounts).adds :=
    txnsLoop_mem_adds env env.accounts a txn ha ht
  refine ⟨?_, ?_, ?_, ⟨?_, ?_⟩, ?_⟩
  · unfold fetchTransactions
    rw [htok]
    dsimp only
    exact hmem
  · rcases hfail with h1 | h1 <;> simp [classifiedTxn, h1]
  · rcases hfail with h1 | h1 <;> simp [classifiedTxn, h1]
  · intro h1; simp [classifiedTxn, h1]
  · intro h1; simp [classifiedTxn, h1]
  · unfold fetchTransactions
    rw [htok]
    dsimp only
    rw [txnsLoop_count]
    rfl

/-- Witness for C5 at the concrete failing-classification run. -/
theorem c5_failure_swallowed_witness :
    ((tokenOf envFail.user).isSome = true ∧ "acc1" ∈ envFail.accounts ∧
     txn0 ∈ envFail.txns "acc1" ∧
     envFail.classify (analyzeInputOf txn0) = CallOutcome.returns AnalysisResult.failure) ∧
    (classifiedTxn envFail.classify "acc1" txn0 ∈
      (fetchTransactions envFail).2.addTransactionCalls ∧
     (classifiedTxn envFail.classify "acc1" txn0).is_deductible = false ∧
     (classifiedTxn envFail.classify "acc1" txn0).deduction_score = some 0 ∧
     ((envFail.classify (analyzeInputOf txn0) = CallOutcome.returns AnalysisResult.failure →
       (classifiedTxn envFail.classify "acc1" txn0).deductible_reason =
         "Analysis failed - requires manual review") ∧
      (envFail.classify (analyzeInputOf txn0) = CallOutcome.throws →
       (classifiedTxn envFail.classify "acc1" txn0).deductible_reason =
         "Analysis error - requires manual review")) ∧
     (fetchTransactions envFail).1 = FetchResult.ok (totalFetched envFail)) :=
  ⟨⟨by decide, by decide, by simp [envFail], by decide⟩,
   c5_failure_swallowed envFail (by decide) "acc1" txn0 (by decide)
     (by simp [envFail]) (Or.inl (by decide))⟩

/-- Claim C9: for a user whose stored record has no truthy bank token, each
of fetchTransactions, getAccountBalances and getInstitutionInfo returns the
typed failure value with error "No Plaid token found", with no Plaid call
and no persistence write. -/
theorem c9_no_token_typed_failure (fe : FetchEnv) (be : BalancesEnv)
    (ie : InstitutionEnv) (hf : tokenOf fe.user = none)
    (hb : tokenOf be.user = none) (hi : tokenOf ie.user = none) :
    fetchTransactions fe = (FetchResult.err "No Plaid token found", emptyFetchLog) ∧
    getAccountBalances be = (PlaidResult.err "No Plaid token found", []) ∧
    getInstitutionInfo ie = (PlaidResult.err "No Plaid token found", []) := by
  unfold fetchTransactions getAccountBalances getInstitutionInfo
  rw [hf, hb, hi]
  exact ⟨rfl, rfl, rfl⟩

/-- Witness for C9 covering the three token-missing shapes: no user record,
an empty-string token and a null token. -/
theorem c9_no_token_typed_failure_witness :
    (tokenOf feNoTok.user = none ∧ tokenOf beNoTok.user = none ∧
     tokenOf ieNoTok.user = none) ∧
    (fetchTransactions feNoTok = (FetchResult.err "No Plaid token found", emptyFetchLog) ∧
     getAccountBalances beNoTok = (PlaidResult.err "No Plaid token found", []) ∧
     getInstitutionInfo ieNoTok = (PlaidResult.err "No Plaid token found", [])) :=
  ⟨⟨by decide, by decide, by decide⟩,
   c9_no_token_typed_failure feNoTok beNoTok ieNoTok (by decide) (by decide) (by decide)⟩

/-- The score written by an update call is never the number zero: null and
zero are both coerced to the omitted field. -/
lemma jsNumTruthy_ne_zero (q : Option ℚ) : jsNumTruthy q ≠ some 0 := by
  unfold jsNumTruthy
  rcases q with _ | x
  · exact Option.noConfusion
  · by_cases hx : x = 0
    · simp [hx]
    · simp [hx]

/-- Claim C10: in analyzeAllTransactions, when a classification succeeds
with a deduction score of 0 or null, the persistence update for that
transaction still writes is_deductible and deductible_reason but omits the
deduction_score field, and no update call of this operation ever writes a
score of 0. -/
theorem c10_zero_score_omitted (env : AnalyzeAllEnv) (txs : List StoredTxn)
    (t : StoredTxn) (r : ParseResult) (htx : env.transactions = some txs)
    (ht : t ∈ txs)
    (hr : analyzeTransactionDeductibility (env.llm t) = AnalysisResult.success r)
    (h0 : r.deduction_score = none ∨ r.deduction_score = some 0) :
    (t.trans_id,
      { is_deductible := r.is_deductible, deductible_reason := r.deductible_reason,
        deduction_score := none : UpdatePayload }) ∈ (analyzeAllTransactions env).2 ∧
    ∀ p ∈ (analyzeAllTransactions env).2, p.2.deduction_score ≠ some 0 := by
  have hne : txs.isEmpty = false := by
    cases txs with
    | nil => cases ht
    | cons x xs => rfl
  have hupd : (analyzeAllTransactions env).2 = txs.filterMap (updateFor env.llm) := by
    unfold analyzeAllTransactions
    rw [htx]
    simp [hne]
  constructor
  · rw [hupd]
    refine List.mem_filterMap.mpr ⟨t, ht, ?_⟩
    unfold updateFor
    rw [hr]
    dsimp only
    have hz : jsNumTruthy r.deduction_score = none := by
      rcases h0 with h1 | h1 <;> simp [jsNumTruthy, h1]
    rw [hz]
  · intro p hp
    rw [hupd] at hp
    rcases List.mem_filterMap.mp hp with ⟨u, _, hu⟩
    revert hu
    unfold updateFor
    cases analyzeTransactionDeductibility (env.llm u) with
    | failure => exact fun hu => Option.noConfusion hu
    | success ru =>
      intro hu
      have : p.2.deduction_score = jsNumTruthy ru.deduction_score := by
        cases Option.some.inj hu
        rfl
      rw [this]
      exact jsNumTruthy_ne_zero ru.deduction_score

/-- Witness for C10: the concrete run whose single stored transaction is
classified successfully with a zero score. -/
theorem c10_zero_score_omitted_witness :
    (envZeroScore.transactions = some [storedTxn0] ∧ storedTxn0 ∈ [storedTxn0] ∧
     analyzeTransactionDeductibility (envZeroScore.llm storedTxn0) =
       AnalysisResult.success (parseResponse llmReply0) ∧
     (parseResponse llmReply0).deduction_score = some 0) ∧
    ((storedTxn0.trans_id,
       { is_deductible := (parseResponse llmReply0).is_deductible,
         deductible_reason := (parseResponse llmReply0).deductible_reason,
         deduction_score := none : UpdatePayload }) ∈ (analyzeAllTransactions envZeroScore).2 ∧
     ∀ p ∈ (analyzeAllTransactions envZeroScore).2, p.2.deduction_score ≠ some 0) := by
  have hz : (parseResponse llmReply0).deduction_score = some 0 := by
    have h : (parseResponse llmReply0).deduction_score = some (scoreOfDigits ['0']) := rfl
    rw [h]
    norm_num [scoreOfDigits, show clampPct (parseIntDigits ['0']) = 0 from by decide]
  exact ⟨⟨rfl, by decide, rfl, hz⟩,
    c10_zero_score_omitted envZeroScore [storedTxn0] storedTxn0 (parseResponse llmReply0)
      rfl (by decide) rfl (Or.inr hz)⟩

end WriteOff
